import Mathlib

/-!
Verification of the speech-recognition session controller of
`src/App.js` (the `useWebSpeechRecognition` hook and the `App`-level
`copyToInput` operation), shallowly embedded in Lean.

The hook's React state cells become fields of `HookState`; each handler
and operation of the hook becomes a function on `HookState`.  Calls to
the external provider (`recognition.start()` / `recognition.stop()`)
are recorded in an output list of `ProviderCall`s; a provider-level
exception thrown by `recognition.start()` is modelled by the boolean
argument `startThrows` of `startListening` (the source catches it).
-/

namespace Vibalert

/-- State of the `useWebSpeechRecognition` hook: the five `useState`
cells `isListening`, `transcript`, `interimTranscript`, `error`,
`isSupported` of `src/App.js` lines 21-25. -/
structure HookState where
  isListening : Bool
  transcript : String
  interimTranscript : String
  error : String
  isSupported : Bool
deriving Repr, DecidableEq

/-- One recognized segment delivered by the provider inside a result
event: `event.results[i][0].transcript` with its `isFinal` flag. -/
structure Segment where
  text : String
  isFinal : Bool
deriving Repr, DecidableEq

/-- Requests issued to the external provider. -/
inductive ProviderCall where
  | start
  | stop
deriving Repr, DecidableEq

/-- The loop of `recognition.onresult` (lines 53-61): iterate the
delivered segments in order, accumulating the final ones into the
first component and the interim ones into the second. -/
def splitSegments (segs : List Segment) : String × String :=
  segs.foldl
    (fun acc seg =>
      if seg.isFinal then (acc.1 ++ seg.text, acc.2) else (acc.1, acc.2 ++ seg.text))
    ("", "")

/-- Handler `recognition.onresult` (lines 49-69): append the
concatenated final segments to `transcript` (guarded by JS truthiness
of `finalTranscript`), and replace `interimTranscript` wholesale. -/
def onresult (s : HookState) (segs : List Segment) : HookState :=
  let finalTranscript := (splitSegments segs).1
  let interimT := (splitSegments segs).2
  let s1 := if finalTranscript ≠ "" then
    { s with transcript := s.transcript ++ finalTranscript } else s
  { s1 with interimTranscript := interimT }

/-- The `switch (event.error)` of `recognition.onerror`
(lines 75-90): provider error code to human-readable message. -/
def errorMessage (code : String) : String :=
  if code = "not-allowed" then
    "Microphone access denied. Please allow microphone permissions."
  else if code = "no-speech" then
    "No speech detected. Please try again."
  else if code = "audio-capture" then
    "No microphone found. Please check your microphone."
  else if code = "network" then
    "Network error. Please check your connection."
  else
    "Speech recognition error: " ++ code

/-- Handler `recognition.onerror` (lines 71-94): set the error record
and leave the listening state.  Note it does not touch
`interimTranscript`. -/
def onerror (s : HookState) (code : String) : HookState :=
  { s with error := errorMessage code, isListening := false }

/-- Handler `recognition.onstart` (lines 43-47). -/
def onstart (s : HookState) : HookState :=
  { s with isListening := true, error := "" }

/-- Handler `recognition.onend` (lines 96-100). -/
def onend (s : HookState) : HookState :=
  { s with isListening := false, interimTranscript := "" }

/-- `startListening` (lines 118-132).  When unsupported it only shows
an alert and returns (no state change, no provider call).  Otherwise
it clears `error`, `transcript` and `interimTranscript` and calls
`recognition.start()`; if that call throws (`startThrows`), the catch
block sets the fixed failure message. -/
def startListening (s : HookState) (startThrows : Bool) :
    HookState × List ProviderCall :=
  if !s.isSupported then (s, [])
  else
    let s1 : HookState :=
      { s with error := "", transcript := "", interimTranscript := "" }
    if startThrows then
      ({ s1 with error := "Failed to start speech recognition. Please try again." },
       [ProviderCall.start])
    else (s1, [ProviderCall.start])

/-- `stopListening` (lines 134-140): issues a stop request; a throw is
caught and only logged, so the hook state is unchanged either way. -/
def stopListening (s : HookState) : HookState × List ProviderCall :=
  (s, [ProviderCall.stop])

/-- `clearTranscript` (lines 142-146). -/
def clearTranscript (s : HookState) : HookState :=
  { s with transcript := "", interimTranscript := "", error := "" }

/-- Initial hook state after the mount effect (lines 29-116): when the
runtime offers `SpeechRecognition` the hook is supported with empty
error; otherwise `isSupported` stays false and the unsupported message
is set (the browser-without-API branch, line 104). -/
def initState (supported : Bool) : HookState :=
  if supported then
    { isListening := false, transcript := "", interimTranscript := "",
      error := "", isSupported := true }
  else
    { isListening := false, transcript := "", interimTranscript := "",
      error := "Web Speech API not supported in this browser. Please use Chrome or Edge.",
      isSupported := false }

/-- An operation of the hook's owner or an event from the provider. -/
inductive Ev where
  | op_start (startThrows : Bool)
  | op_stop
  | op_clear
  | ev_onstart
  | ev_onresult (segs : List Segment)
  | ev_onerror (code : String)
  | ev_onend
deriving Repr, DecidableEq

/-- One transition of the hook state under an operation or event. -/
def step (s : HookState) (e : Ev) : HookState :=
  match e with
  | .op_start t => (startListening s t).1
  | .op_stop => (stopListening s).1
  | .op_clear => clearTranscript s
  | .ev_onstart => onstart s
  | .ev_onresult segs => onresult s segs
  | .ev_onerror c => onerror s c
  | .ev_onend => onend s

/-- Run a sequence of operations and events from a state. -/
def run (s : HookState) (evs : List Ev) : HookState :=
  evs.foldl step s

/-- Guard under which a real provider delivers an event: result events
arrive only while the recognizer is listening. -/
def guardOK (s : HookState) (e : Ev) : Bool :=
  match e with
  | .ev_onresult _ => s.isListening
  | _ => true

/-- Trace validity: every result event in the trace is delivered in a
listening state. -/
def guardedTrace (s : HookState) : List Ev → Bool
  | [] => true
  | e :: rest => guardOK s e && guardedTrace (step s e) rest

/-- Concatenation of the final segments of one event, in delivery
order. -/
def finalsOf (segs : List Segment) : String :=
  (splitSegments segs).1

/-- Concatenation of the interim segments of one event, in delivery
order. -/
def interimsOf (segs : List Segment) : String :=
  (splitSegments segs).2

/-- `App`-level state: the hook state plus the `textToSpeak` input
(line 161). -/
structure AppState where
  hook : HookState
  textToSpeak : String
deriving Repr, DecidableEq

/-- `copyToInput` (lines 205-211): if the committed transcript is
non-empty (JS truthiness), copy it into the input and clear the hook's
transcript buffers and error; otherwise do nothing. -/
def copyToInput (a : AppState) : AppState :=
  if a.hook.transcript ≠ "" then
    { a with textToSpeak := a.hook.transcript, hook := clearTranscript a.hook }
  else a

/-- Spec-side description: the concatenation, in delivery order, of
every segment tagged final in a list of segments. -/
def finalsConcat : List Segment → String
  | [] => ""
  | g :: rest => (if g.isFinal then g.text else "") ++ finalsConcat rest

/-- Spec-side description: the concatenation, in delivery order, of
every segment tagged interim in a list of segments. -/
def interimsConcat : List Segment → String
  | [] => ""
  | g :: rest => (if g.isFinal then "" else g.text) ++ interimsConcat rest

theorem splitSegments_go (segs : List Segment) : ∀ (a b : String),
    segs.foldl
      (fun acc seg =>
        if seg.isFinal then (acc.1 ++ seg.text, acc.2) else (acc.1, acc.2 ++ seg.text))
      (a, b)
      = (a ++ finalsConcat segs, b ++ interimsConcat segs) := by
  induction segs with
  | nil => intro a b; simp [finalsConcat, interimsConcat]
  | cons g rest ih =>
      intro a b
      cases hf : g.isFinal <;>
        simp [finalsConcat, interimsConcat, hf, ih, String.append_assoc]

theorem splitSegments_eq (segs : List Segment) :
    splitSegments segs = (finalsConcat segs, interimsConcat segs) := by
  unfold splitSegments
  rw [splitSegments_go]
  simp

theorem onresult_transcript (s : HookState) (segs : List Segment) :
    (onresult s segs).transcript = s.transcript ++ finalsConcat segs := by
  unfold onresult
  rw [splitSegments_eq]
  by_cases h : finalsConcat segs = ""
  · simp [h]
  · simp [h]

theorem onresult_interim (s : HookState) (segs : List Segment) :
    (onresult s segs).interimTranscript = interimsConcat segs := by
  unfold onresult
  rw [splitSegments_eq]

theorem finalsConcat_append (l1 l2 : List Segment) :
    finalsConcat (l1 ++ l2) = finalsConcat l1 ++ finalsConcat l2 := by
  induction l1 with
  | nil => simp [finalsConcat]
  | cons g rest ih => simp [finalsConcat, ih, String.append_assoc]

theorem run_results_transcript (evss : List (List Segment)) : ∀ s : HookState,
    (run s (evss.map Ev.ev_onresult)).transcript
      = s.transcript ++ finalsConcat evss.flatten := by
  induction evss with
  | nil => intro s; simp [run, finalsConcat]
  | cons e rest ih =>
      intro s
      simp only [List.map_cons, run, List.foldl_cons, List.flatten_cons]
      rw [show (rest.map Ev.ev_onresult).foldl step (step s (Ev.ev_onresult e))
            = run (onresult s e) (rest.map Ev.ev_onresult) from rfl]
      rw [ih, onresult_transcript, finalsConcat_append, String.append_assoc]

/-- Claim C1: after `start()` (which resets the committed transcript
to empty), processing any sequence of result events leaves the
committed transcript equal to the concatenation, in delivery order, of
every final segment across all those events. -/
theorem C1_committed_transcript (s : HookState) (evss : List (List Segment))
    (h : s.isSupported = true) :
    (run (startListening s false).1 (evss.map Ev.ev_onresult)).transcript
      = finalsConcat evss.flatten := by
  rw [run_results_transcript]
  simp [startListening, h]

theorem C1_committed_transcript_witness :
    (initState true).isSupported = true ∧
    (run (startListening (initState true) false).1
        ([[⟨"hello ", true⟩], [⟨"world", false⟩]].map Ev.ev_onresult)).transcript
      = finalsConcat ([[⟨"hello ", true⟩], [⟨"world", false⟩]] : List (List Segment)).flatten :=
  ⟨rfl, C1_committed_transcript (initState true) [[⟨"hello ", true⟩], [⟨"world", false⟩]] rfl⟩

/-- Claim C2: after processing any result event from any state, the
pending fragment equals exactly the concatenation of the interim
segments of that event alone — it is replaced wholesale, never
accumulated across events. -/
theorem C2_pending_replaced (s : HookState) (segs : List Segment) :
    (onresult s segs).interimTranscript = interimsConcat segs :=
  onresult_interim s segs

/-- Claim C5: the error-event handler maps each provider error code to
its fixed human-readable message, and every other code `c` to
`"Speech recognition error: "` followed by `c`. -/
theorem C5_error_mapping :
    (∀ s : HookState, (onerror s "not-allowed").error
        = "Microphone access denied. Please allow microphone permissions.")
  ∧ (∀ s : HookState, (onerror s "no-speech").error
        = "No speech detected. Please try again.")
  ∧ (∀ s : HookState, (onerror s "audio-capture").error
        = "No microphone found. Please check your microphone.")
  ∧ (∀ s : HookState, (onerror s "network").error
        = "Network error. Please check your connection.")
  ∧ (∀ (s : HookState) (c : String), c ≠ "not-allowed" → c ≠ "no-speech" →
        c ≠ "audio-capture" → c ≠ "network" →
        (onerror s c).error = "Speech recognition error: " ++ c) := by
  refine ⟨fun s => rfl, fun s => rfl, fun s => rfl, fun s => rfl,
    fun s c h1 h2 h3 h4 => ?_⟩
  simp [onerror, errorMessage, h1, h2, h3, h4]

theorem C5_error_mapping_witness :
    (onerror (initState true) "aborted").error = "Speech recognition error: " ++ "aborted" :=
  C5_error_mapping.2.2.2.2 (initState true) "aborted"
    (by decide) (by decide) (by decide) (by decide)

/-- Counterexample to claim C3: with the provider available,
`startListening` from the freshly initialized state does not set
`isListening`; the transition to `Listening` happens only in the
`onstart` confirmation handler. -/
theorem C3_counterexample :
    (startListening (initState true) false).1.isListening = false ∧
    (onstart (startListening (initState true) false).1).isListening = true :=
  ⟨rfl, rfl⟩

/-- Claim C3 (amended): when the provider is available, `start()`
clears the Error Record and both transcript parts and issues the start
request to the provider, but leaves `isListening` unchanged — the
session state becomes `Listening` only when the provider's `onstart`
confirmation is processed, not before. -/
theorem C3_start_effects (s : HookState) (h : s.isSupported = true) :
    startListening s false
      = ({ s with error := "", transcript := "", interimTranscript := "" },
         [ProviderCall.start])
    ∧ (startListening s false).1.isListening = s.isListening := by
  constructor <;> simp [startListening, h]

theorem C3_start_effects_witness :
    startListening (initState true) false
      = ({ initState true with error := "", transcript := "", interimTranscript := "" },
         [ProviderCall.start])
    ∧ (startListening (initState true) false).1.isListening = (initState true).isListening :=
  C3_start_effects (initState true) rfl

/-- Counterexample to claim C4: on `onError("not-allowed")` while
`Listening` with a non-empty pending fragment, the handler sets the
message and leaves listening, but the pending fragment stays
`"draft"` — it is not cleared. -/
theorem C4_counterexample :
    (onerror ⟨true, "", "draft", "", true⟩ "not-allowed").interimTranscript = "draft" ∧
    (onerror ⟨true, "", "draft", "", true⟩ "not-allowed").interimTranscript ≠ "" ∧
    (onerror ⟨true, "", "draft", "", true⟩ "not-allowed").error
      = "Microphone access denied. Please allow microphone permissions." ∧
    (onerror ⟨true, "", "draft", "", true⟩ "not-allowed").isListening = false :=
  ⟨rfl, by decide, rfl, rfl⟩

/-- Claim C4 (amended): for every provider error event received while
`Listening`, the handler sets the Error Record and moves the session
state out of `Listening`, but leaves the pending fragment unchanged
(only the subsequent `end` event clears it); in particular after
`onError("not-allowed")` the message is the fixed permission-denied
message and the state is `Idle`, with the pending fragment as it
was. -/
theorem C4_error_effects (s : HookState) (code : String)
    (h : s.isListening = true) :
    onerror s code = { s with error := errorMessage code, isListening := false }
    ∧ (onerror s code).isListening ≠ s.isListening
    ∧ (onerror s code).interimTranscript = s.interimTranscript
    ∧ errorMessage "not-allowed"
        = "Microphone access denied. Please allow microphone permissions." :=
  ⟨rfl, by simp [onerror, h], rfl, rfl⟩

theorem C4_error_effects_witness :
    onerror ⟨true, "t", "p", "", true⟩ "not-allowed"
      = { (⟨true, "t", "p", "", true⟩ : HookState) with
          error := errorMessage "not-allowed", isListening := false }
    ∧ (onerror ⟨true, "t", "p", "", true⟩ "not-allowed").isListening
        ≠ (⟨true, "t", "p", "", true⟩ : HookState).isListening
    ∧ (onerror ⟨true, "t", "p", "", true⟩ "not-allowed").interimTranscript
        = (⟨true, "t", "p", "", true⟩ : HookState).interimTranscript
    ∧ errorMessage "not-allowed"
        = "Microphone access denied. Please allow microphone permissions." :=
  C4_error_effects ⟨true, "t", "p", "", true⟩ "not-allowed" rfl

/-- Counterexample to claim C7: when the provider-level start request
throws, the controller state is not left unchanged: the committed
transcript `"hello"` is cleared and the Error Record is set to the
fixed failure message. -/
theorem C7_counterexample :
    (startListening ⟨true, "hello", "w", "", true⟩ true).1.transcript = "" ∧
    (⟨true, "hello", "w", "", true⟩ : HookState).transcript ≠ "" ∧
    (startListening ⟨true, "hello", "w", "", true⟩ true).1.error
      = "Failed to start speech recognition. Please try again." :=
  ⟨rfl, by decide, rfl⟩

/-- Claim C7 (amended): when the provider-level start request fails
(for example because a session is already running), the exception is
caught — `startListening` returns normally and `isListening` is
unchanged — but both transcript parts have already been cleared by
`start()` and the Error Record is set to
"Failed to start speech recognition. Please try again.". -/
theorem C7_start_failure (s : HookState) (h : s.isSupported = true) :
    (startListening s true).1
      = { s with
          transcript := ""
          interimTranscript := ""
          error := "Failed to start speech recognition. Please try again." }
    ∧ (startListening s true).1.isListening = s.isListening := by
  constructor <;> simp [startListening, h]

theorem C7_start_failure_witness :
    (startListening ⟨true, "hello", "w", "", true⟩ true).1
      = { (⟨true, "hello", "w", "", true⟩ : HookState) with
          transcript := ""
          interimTranscript := ""
          error := "Failed to start speech recognition. Please try again." }
    ∧ (startListening ⟨true, "hello", "w", "", true⟩ true).1.isListening
        = (⟨true, "hello", "w", "", true⟩ : HookState).isListening :=
  C7_start_failure ⟨true, "hello", "w", "", true⟩ rfl

/-- Counterexample to claim C8: after `clear()` erases the
initialization-time unsupported message, calling `start()` with the
provider unavailable leaves the Error Record empty — the resulting
state carries no message mentioning the environment or browser. -/
theorem C8_counterexample :
    (startListening (clearTranscript (initState false)) false).1.error = "" ∧
    (startListening (clearTranscript (initState false)) false).1
      = clearTranscript (initState false) :=
  ⟨rfl, rfl⟩

/-- Claim C8 (amended): for every state, calling `start()` when the
provider is unavailable leaves the entire controller state unchanged —
in particular it never mutates the committed transcript or the pending
fragment — and issues no call to the provider; the error message
mentioning the environment/browser requirement is set once at
initialization (and survives `start()` calls, though `clear()` erases
it), not by `start()` itself. -/
theorem C8_unsupported_start (s : HookState) (t : Bool)
    (h : s.isSupported = false) :
    startListening s t = (s, [])
    ∧ (initState false).error
        = "Web Speech API not supported in this browser. Please use Chrome or Edge." := by
  constructor
  · simp [startListening, h]
  · rfl

theorem C8_unsupported_start_witness :
    startListening (initState false) false = (initState false, [])
    ∧ (initState false).error
        = "Web Speech API not supported in this browser. Please use Chrome or Edge." :=
  C8_unsupported_start (initState false) false rfl

theorem errorMessage_ne_empty (c : String) : errorMessage c ≠ "" := by
  unfold errorMessage
  split
  · simp
  split
  · simp
  split
  · simp
  split
  · simp
  intro h
  have h2 := congrArg String.length h
  rw [String.length_append] at h2
  have e1 : ("Speech recognition error: " : String).length = 26 := rfl
  have e2 : ("" : String).length = 0 := rfl
  rw [e1, e2] at h2
  omega

theorem onresult_isListening (s : HookState) (segs : List Segment) :
    (onresult s segs).isListening = s.isListening := by
  unfold onresult
  by_cases hf : (splitSegments segs).1 ≠ "" <;> simp [hf]

theorem inv_step (s : HookState) (e : Ev) (hg : guardOK s e = true)
    (hinv : s.isListening = false → s.error = "" → s.interimTranscript = "") :
    (step s e).isListening = false → (step s e).error = ""
      → (step s e).interimTranscript = "" := by
  cases e with
  | op_start t =>
      by_cases hsup : s.isSupported = true
      · cases t <;> simp [step, startListening, hsup]
      · simp only [Bool.not_eq_true] at hsup
        simpa [step, startListening, hsup] using hinv
  | op_stop => simpa [step, stopListening] using hinv
  | op_clear => simp [step, clearTranscript]
  | ev_onstart => simp [step, onstart]
  | ev_onresult segs =>
      simp only [guardOK] at hg
      intro h1 _
      rw [show step s (Ev.ev_onresult segs) = onresult s segs from rfl,
          onresult_isListening, hg] at h1
      simp at h1
  | ev_onerror c =>
      intro _ herr
      exact absurd herr (errorMessage_ne_empty c)
  | ev_onend => simp [step, onend]

theorem inv_run (evs : List Ev) : ∀ s : HookState,
    (s.isListening = false → s.error = "" → s.interimTranscript = "") →
    guardedTrace s evs = true →
    ((run s evs).isListening = false → (run s evs).error = ""
      → (run s evs).interimTranscript = "") := by
  induction evs with
  | nil => intro s h _; simpa [run] using h
  | cons e rest ih =>
      intro s h hg
      rw [guardedTrace, Bool.and_eq_true] at hg
      have hstep := inv_step s e hg.1 h
      simpa [run] using ih (step s e) hstep hg.2

/-- Counterexample to claim C6: the `Idle` ⇒ pending-empty invariant
fails on the code.  First, a result event delivered while not
listening leaves the state `Idle` with pending `"x"`.  Second, even
when result events arrive only while `Listening`, an error event
leaves `Idle` with the pending fragment still `"x"` (the error handler
does not clear it). -/
theorem C6_counterexample :
    ((run (initState true) [Ev.ev_onresult [⟨"x", false⟩]]).isListening = false
      ∧ (run (initState true) [Ev.ev_onresult [⟨"x", false⟩]]).interimTranscript = "x")
    ∧ (guardedTrace (initState true)
          [Ev.ev_onstart, Ev.ev_onresult [⟨"x", false⟩], Ev.ev_onerror "network"] = true
      ∧ (run (initState true)
          [Ev.ev_onstart, Ev.ev_onresult [⟨"x", false⟩], Ev.ev_onerror "network"]).isListening
          = false
      ∧ (run (initState true)
          [Ev.ev_onstart, Ev.ev_onresult [⟨"x", false⟩], Ev.ev_onerror "network"]).interimTranscript
          = "x") :=
  ⟨⟨rfl, rfl⟩, rfl, rfl, rfl⟩

/-- Claim C6 (amended): in every state reachable from the initial
state by a sequence of operations and provider events in which result
events are delivered only while `Listening`, if the session state is
`Idle` and the Error Record is empty, then the pending fragment is the
empty string.  (After an error event the state is `Idle` with a
non-empty Error Record, and the pending fragment survives until the
`end` event.) -/
theorem C6_idle_pending_empty (b : Bool) (evs : List Ev)
    (hg : guardedTrace (initState b) evs = true)
    (hidle : (run (initState b) evs).isListening = false)
    (herr : (run (initState b) evs).error = "") :
    (run (initState b) evs).interimTranscript = "" := by
  have hinit : (initState b).isListening = false → (initState b).error = ""
      → (initState b).interimTranscript = "" := by
    cases b <;> intro _ _ <;> rfl
  exact inv_run evs (initState b) hinit hg hidle herr

theorem C6_idle_pending_empty_witness :
    (guardedTrace (initState true)
        [Ev.ev_onstart, Ev.ev_onresult [⟨"hi", false⟩], Ev.ev_onend] = true
    ∧ (run (initState true)
        [Ev.ev_onstart, Ev.ev_onresult [⟨"hi", false⟩], Ev.ev_onend]).isListening = false
    ∧ (run (initState true)
        [Ev.ev_onstart, Ev.ev_onresult [⟨"hi", false⟩], Ev.ev_onend]).error = "")
    ∧ (run (initState true)
        [Ev.ev_onstart, Ev.ev_onresult [⟨"hi", false⟩], Ev.ev_onend]).interimTranscript = "" :=
  ⟨⟨rfl, rfl, rfl⟩,
   C6_idle_pending_empty true [Ev.ev_onstart, Ev.ev_onresult [⟨"hi", false⟩], Ev.ev_onend]
     rfl rfl rfl⟩

/-- Claim C9: from any `Listening` state, `stop()` followed by the
provider's `end` event leaves the session `Idle` with the committed
transcript exactly as it was before `stop()`; only the pending
fragment is cleared, and `stop()` issues the stop request to the
provider. -/
theorem C9_stop_then_end (s : HookState) (h : s.isListening = true) :
    onend (stopListening s).1 = { s with isListening := false, interimTranscript := "" }
    ∧ (onend (stopListening s).1).transcript = s.transcript
    ∧ (onend (stopListening s).1).isListening ≠ s.isListening
    ∧ (stopListening s).2 = [ProviderCall.stop] :=
  ⟨rfl, rfl, by simp [onend, stopListening, h], rfl⟩

theorem C9_stop_then_end_witness :
    onend (stopListening ⟨true, "kept", "p", "", true⟩).1
      = { (⟨true, "kept", "p", "", true⟩ : HookState) with
          isListening := false, interimTranscript := "" }
    ∧ (onend (stopListening ⟨true, "kept", "p", "", true⟩).1).transcript
        = (⟨true, "kept", "p", "", true⟩ : HookState).transcript
    ∧ (onend (stopListening ⟨true, "kept", "p", "", true⟩).1).isListening
        ≠ (⟨true, "kept", "p", "", true⟩ : HookState).isListening
    ∧ (stopListening ⟨true, "kept", "p", "", true⟩).2 = [ProviderCall.stop] :=
  C9_stop_then_end ⟨true, "kept", "p", "", true⟩ rfl

/-- Claim C10: `copyToInput` with a non-empty committed transcript
sets the text-to-speak input to the committed transcript and resets
the committed transcript, pending fragment and Error Record to empty;
with an empty committed transcript it changes nothing. -/
theorem C10_copy_to_input (a : AppState) :
    (a.hook.transcript ≠ "" →
      copyToInput a
        = { hook := { a.hook with
              transcript := ""
              interimTranscript := ""
              error := "" },
            textToSpeak := a.hook.transcript })
    ∧ (a.hook.transcript = "" → copyToInput a = a) := by
  constructor
  · intro h
    simp [copyToInput, clearTranscript, h]
  · intro h
    simp [copyToInput, h]

theorem C10_copy_to_input_witness :
    (copyToInput ⟨⟨false, "hi", "y", "e", true⟩, "old"⟩
      = { hook := { (⟨false, "hi", "y", "e", true⟩ : HookState) with
            transcript := ""
            interimTranscript := ""
            error := "" },
          textToSpeak := (⟨false, "hi", "y", "e", true⟩ : HookState).transcript })
    ∧ copyToInput ⟨initState true, "old"⟩ = ⟨initState true, "old"⟩ :=
  ⟨(C10_copy_to_input ⟨⟨false, "hi", "y", "e", true⟩, "old"⟩).1 (by decide),
   (C10_copy_to_input ⟨initState true, "old"⟩).2 rfl⟩

end Vibalert
